import Mathlib

/-!
Shallow embedding of `src/examples/showip/winshowip.c` (winshowip).

The program is one `main` that talks to the Winsock platform.  The platform
calls are taken as a parameter (`Platform`): every result the platform hands
back is a field of that record.  `main` returns its exit code together with
everything it wrote to standard output and standard error and the ordered
trace of the platform calls it made.

C strings are `String`s, machine integers are `Int`/`Nat` with explicit
wrap-around where the source converts between them, and a pointer into a
`sockaddr` is the list of bytes readable from that pointer (`none` for `NULL`).
-/

namespace Winshowip

/-! ## Platform header constants and macros -/

/-- Constant `AF_UNSPEC` of `winsock2.h`. -/
def AF_UNSPEC : Int := 0

/-- Constant `AF_INET` of `winsock2.h`. -/
def AF_INET : Int := 2

/-- Constant `AF_INET6` of `winsock2.h`. -/
def AF_INET6 : Int := 23

/-- Constant `SOCK_STREAM` of `winsock2.h`. -/
def SOCK_STREAM : Int := 1

/-- Constant `INET6_ADDRSTRLEN` of `ws2ipdef.h`: the size of the text buffer `ac_ipstr`. -/
def INET6_ADDRSTRLEN : Nat := 65

/-- Constant `FORMAT_MESSAGE_ALLOCATE_BUFFER` of `winbase.h`. -/
def FORMAT_MESSAGE_ALLOCATE_BUFFER : Nat := 0x100

/-- Constant `FORMAT_MESSAGE_FROM_SYSTEM` of `winbase.h`. -/
def FORMAT_MESSAGE_FROM_SYSTEM : Nat := 0x1000

/-- Constant `FORMAT_MESSAGE_IGNORE_INSERTS` of `winbase.h`. -/
def FORMAT_MESSAGE_IGNORE_INSERTS : Nat := 0x200

/-- Constant `LANG_SYSTEM_DEFAULT` of `winnt.h`. -/
def LANG_SYSTEM_DEFAULT : Nat := 0x800

/-- Macro `MAKEWORD(a,b)`: `a` is the low byte, `b` the high byte of a 16-bit word. -/
def MAKEWORD (a b : Nat) : Nat := (a % 256) ||| ((b % 256) <<< 8)

/-- Macro `LOBYTE(w)`: the low-order byte of a word. -/
def LOBYTE (w : Nat) : Nat := w % 256

/-- Macro `HIBYTE(w)`: the high-order byte of a word. -/
def HIBYTE (w : Nat) : Nat := (w >>> 8) % 256

/-- Offset of the field `sin_addr` inside `struct sockaddr_in`
(`sin_family` and `sin_port` are two bytes each). -/
def offset_sin_addr : Nat := 4

/-- Offset of the field `sin6_addr` inside `struct sockaddr_in6`
(`sin6_family`, `sin6_port`: two bytes each, `sin6_flowinfo`: four bytes). -/
def offset_sin6_addr : Nat := 8

/-! ## Data -/

/-- The `struct addrinfo` without its `ai_next` link: a linked list of records is a
`List addrinfo`.  `ai_addr` is the bytes of the pointed-to `sockaddr`. -/
structure addrinfo where
  ai_flags : Int
  ai_family : Int
  ai_socktype : Int
  ai_protocol : Int
  ai_addrlen : Nat
  ai_canonname : Option String
  ai_addr : Option (List Nat)
  deriving DecidableEq

/-- The record left by `memset(&s_hints, 0, sizeof(s_hints))`. -/
def addrinfo_zero : addrinfo :=
  { ai_flags := 0, ai_family := 0, ai_socktype := 0, ai_protocol := 0,
    ai_addrlen := 0, ai_canonname := none, ai_addr := none }

/-- One call into the platform, with the arguments the program passed. -/
inductive Call where
  | WSAStartup (wVersionRequested : Nat)
  | WSACleanup
  | WSAGetLastError
  | getaddrinfo (node : String) (service : Option String) (hints : addrinfo)
  | inet_ntop (family : Int) (pAddr : Option (List Nat)) (size : Nat)
  | freeaddrinfo (res : List addrinfo)
  | FormatMessage (dwFlags : Nat) (dwMessageId : Nat) (dwLanguageId : Nat)
  | LocalFree
  deriving DecidableEq

/-- What the platform answers.  `WSAStartup` gives its status and the
`wVersion` it stores in `WSADATA`; `getaddrinfo` gives its status and the list
it stores in `ps_res`; `FormatMessage` gives the text it allocates;
`inet_ntop` gives the contents of the text buffer after the call, from the
family, the address pointer, the contents before the call and the size;
`ac_ipstr` is whatever the uninitialised buffer holds when `main` starts. -/
structure Platform where
  WSAStartup : Nat → Int × Nat
  getaddrinfo : String → Option String → addrinfo → Int × List addrinfo
  WSAGetLastError : Int
  FormatMessage : Nat → Nat → Nat → String
  inet_ntop : Int → Option (List Nat) → String → Nat → String
  ac_ipstr : String

/-- The observable outcome of one run of `main`. -/
structure Run where
  exit : Int
  stdout : String
  stderr : String
  trace : List Call
  deriving DecidableEq

/-! ## The program -/

/-- The cast `(DWORD)i`: an `int` read as an unsigned 32-bit value. -/
def toDWORD (i : Int) : Nat := (i % 4294967296).toNat

/-- The conversion `%ld` applied to a `DWORD`: the 32 bits read as a signed `long`. -/
def fmt_ld (d : Nat) : String :=
  if d % 4294967296 < 2147483648 then toString (d % 4294967296)
  else toString ((d % 4294967296 : Nat) - (4294967296 : Int))

/-- The conversion `%d` applied to an `int`. -/
def fmt_d (i : Int) : String := toString i

/-- The function `get_msg_text`: one `FormatMessage` call; the text is stored through `pnc_msg`. -/
def get_msg_text (P : Platform) (dw_error : Nat) : String × List Call :=
  let dw_flags := FORMAT_MESSAGE_ALLOCATE_BUFFER
    ||| FORMAT_MESSAGE_FROM_SYSTEM
    ||| FORMAT_MESSAGE_IGNORE_INSERTS
  (P.FormatMessage dw_flags dw_error LANG_SYSTEM_DEFAULT,
   [Call.FormatMessage dw_flags dw_error LANG_SYSTEM_DEFAULT])

/-- The pointer `pv_address` of the loop body: into `sin_addr` for `AF_INET`,
into `sin6_addr` for every other family. -/
def pv_address (r : addrinfo) : Option (List Nat) :=
  if r.ai_family = AF_INET then r.ai_addr.map (List.drop offset_sin_addr)
  else r.ai_addr.map (List.drop offset_sin6_addr)

/-- The label `pc_ipver` of the loop body. -/
def pc_ipver (r : addrinfo) : String :=
  if r.ai_family = AF_INET then "IPv4" else "IPv6"

/-- The `for` loop over the list `ps_res`: for each record one `inet_ntop`
into `ac_ipstr` and one `printf`.  Gives the text printed and the calls made. -/
def print_addresses (P : Platform) : List addrinfo → String → String × List Call
  | [], _ => ("", [])
  | r :: rest, ac_ipstr =>
    let ac_ipstr' := P.inet_ntop r.ai_family (pv_address r) ac_ipstr INET6_ADDRSTRLEN
    let line := "  " ++ pc_ipver r ++ ": " ++ ac_ipstr' ++ "\n"
    let tail := print_addresses P rest ac_ipstr'
    (line ++ tail.1,
     Call.inet_ntop r.ai_family (pv_address r) INET6_ADDRSTRLEN :: tail.2)

/-- The hints record built before the lookup. -/
def s_hints : addrinfo :=
  { addrinfo_zero with ai_family := AF_UNSPEC, ai_socktype := SOCK_STREAM }

/-- The function `main` of `winshowip.c`. -/
def main (P : Platform) (argc : Int) (argv : Nat → String) : Run :=
  if argc ≠ 2 then
    { exit := 1, stdout := "", stderr := "usage: WSshowip hostname\n", trace := [] }
  else
    let startup := P.WSAStartup (MAKEWORD 2 2)
    let t1 := [Call.WSAStartup (MAKEWORD 2 2)]
    if startup.1 ≠ 0 then
      let dw_error := toDWORD startup.1
      let msg := get_msg_text P dw_error
      { exit := 2, stdout := "",
        stderr := "WSAStartup failed with code " ++ fmt_d startup.1 ++ ".\n"
          ++ (msg.1 ++ "\n"),
        trace := t1 ++ msg.2 ++ [Call.LocalFree] }
    else if LOBYTE startup.2 < 2 ∨ HIBYTE startup.2 < 2 then
      { exit := 3, stdout := "",
        stderr := "Version 2.2 of Winsock is not available.\n",
        trace := t1 ++ [Call.WSACleanup] }
    else
      let lookup := P.getaddrinfo (argv 1) none s_hints
      let t2 := t1 ++ [Call.getaddrinfo (argv 1) none s_hints]
      if lookup.1 ≠ 0 then
        let dw_error := toDWORD P.WSAGetLastError
        let msg := get_msg_text P dw_error
        { exit := 4, stdout := "",
          stderr := "getaddrinfo failed with code " ++ fmt_ld dw_error ++ ".\n"
            ++ (msg.1 ++ "\n"),
          trace := t2 ++ [Call.WSAGetLastError] ++ msg.2
            ++ [Call.LocalFree, Call.WSACleanup] }
      else
        let printed := print_addresses P lookup.2 P.ac_ipstr
        { exit := 0,
          stdout := "IP addresses for " ++ argv 1 ++ ":\n\n" ++ printed.1,
          stderr := "",
          trace := t2 ++ printed.2 ++ [Call.WSACleanup, Call.freeaddrinfo lookup.2] }

/-! ## A concrete platform for evaluation -/

/-- Decimal text of a byte. -/
def byteText (b : Nat) : String := toString (b % 256)

/-- Text of one 16-bit group of an IPv6 address, in hexadecimal. -/
def groupText (hi lo : Nat) : String := String.mk (Nat.toDigits 16 ((hi % 256) * 256 + lo % 256))

/-- A stand-in `inet_ntop`: dotted-quad text for `AF_INET`, eight
colon-separated hexadecimal groups for `AF_INET6`; for every other family, and
for an address that is missing or too short, the call fails and the buffer
stays as it was. -/
def local_inet_ntop (family : Int) (pAddr : Option (List Nat)) (buf : String) (_size : Nat) :
    String :=
  match pAddr with
  | none => buf
  | some bytes =>
    if family = AF_INET then
      if 4 ≤ bytes.length then
        byteText (bytes.getD 0 0) ++ "." ++ byteText (bytes.getD 1 0) ++ "."
          ++ byteText (bytes.getD 2 0) ++ "." ++ byteText (bytes.getD 3 0)
      else buf
    else if family = AF_INET6 then
      if 16 ≤ bytes.length then
        groupText (bytes.getD 0 0) (bytes.getD 1 0) ++ ":"
          ++ groupText (bytes.getD 2 0) (bytes.getD 3 0) ++ ":"
          ++ groupText (bytes.getD 4 0) (bytes.getD 5 0) ++ ":"
          ++ groupText (bytes.getD 6 0) (bytes.getD 7 0) ++ ":"
          ++ groupText (bytes.getD 8 0) (bytes.getD 9 0) ++ ":"
          ++ groupText (bytes.getD 10 0) (bytes.getD 11 0) ++ ":"
          ++ groupText (bytes.getD 12 0) (bytes.getD 13 0) ++ ":"
          ++ groupText (bytes.getD 14 0) (bytes.getD 15 0)
      else buf
    else buf

/-- A stand-in platform that knows `localhost`: `WSAStartup` succeeds and
reports `wVersion`, the lookup of `localhost` gives `records`, every other name
fails with status 11001 (`WSAHOST_NOT_FOUND`). -/
def localPlatform (wVersion : Nat) (records : List addrinfo) : Platform :=
  { WSAStartup := fun _ => (0, wVersion)
    getaddrinfo := fun node _ _ => if node = "localhost" then (0, records) else (11001, [])
    WSAGetLastError := 11001
    FormatMessage := fun _ _ _ => "No such host is known.\r\n"
    inet_ntop := local_inet_ntop
    ac_ipstr := "" }

/-- The `AF_INET` record of 127.0.0.1. -/
def loopback4 : addrinfo :=
  { addrinfo_zero with
    ai_family := AF_INET, ai_socktype := SOCK_STREAM, ai_protocol := 6, ai_addrlen := 16,
    ai_addr := some [2, 0, 0, 0, 127, 0, 0, 1, 0, 0, 0, 0, 0, 0, 0, 0] }

/-- The `AF_INET6` record of the loopback address. -/
def loopback6 : addrinfo :=
  { addrinfo_zero with
    ai_family := AF_INET6, ai_socktype := SOCK_STREAM, ai_protocol := 6, ai_addrlen := 28,
    ai_addr := some [23, 0, 0, 0, 0, 0, 0, 0,
      0, 0, 0, 0, 0, 0, 0, 0, 0, 0, 0, 0, 0, 0, 0, 1, 0, 0, 0, 0] }

/-- What the specification says of the resolver: it "reports failure, not an
empty list, when no records exist", so status 0 comes with at least one
record. -/
def resolver_contract (P : Platform) : Prop :=
  ∀ (node : String) (service : Option String) (hints : addrinfo),
    (P.getaddrinfo node service hints).1 = 0 → (P.getaddrinfo node service hints).2 ≠ []

/-- The call is `WSAStartup`. -/
def is_WSAStartup : Call → Bool
  | Call.WSAStartup _ => true
  | _ => false

/-- The call is `WSACleanup`. -/
def is_WSACleanup : Call → Bool
  | Call.WSACleanup => true
  | _ => false

/-- The call is `getaddrinfo`. -/
def is_getaddrinfo : Call → Bool
  | Call.getaddrinfo _ _ _ => true
  | _ => false

/-- The call is `freeaddrinfo`. -/
def is_freeaddrinfo : Call → Bool
  | Call.freeaddrinfo _ => true
  | _ => false

/-- The call goes into the networking interface:
`getaddrinfo`, `WSAGetLastError`, `inet_ntop` or `freeaddrinfo`. -/
def is_networking : Call → Bool
  | Call.getaddrinfo _ _ _ => true
  | Call.WSAGetLastError => true
  | Call.inet_ntop _ _ _ => true
  | Call.freeaddrinfo _ => true
  | _ => false

/-- The networking calls of a trace made after its first `WSACleanup`. -/
def networking_after_cleanup : List Call → List Call
  | [] => []
  | Call.WSACleanup :: rest => rest.filter is_networking
  | _ :: rest => networking_after_cleanup rest

/-- The command line `WSshowip <host>`. -/
def argvOf (host : String) : Nat → String := fun i => if i = 1 then host else "WSshowip"

/-! ## Vocabulary of the specification -/

/-- Concatenation of a sequence of texts. -/
def concat (parts : List String) : String := parts.foldr (fun s t => s ++ t) ""

/-- Exit code as the specification lists it, stage by stage: wrong argument
count, initialisation failure, version check failure, resolution failure,
success. -/
def exit_code_spec (argc startup : Int) (wVersion : Nat) (lookup : Int) : Int :=
  if argc ≠ 2 then 1
  else if startup ≠ 0 then 2
  else if LOBYTE wVersion < 2 ∨ HIBYTE wVersion < 2 then 3
  else if lookup ≠ 0 then 4
  else 0

/-- The header line and the blank line that follow a successful lookup. -/
def header (host : String) : String := "IP addresses for " ++ host ++ ":\n\n"

/-- The address of a record as the specification reads it, "the raw address
bytes from the family-appropriate sub-structure": the bytes of the `sockaddr`
from byte 4 on (where `sin_addr` starts) for `AF_INET`, from byte 8 on (where
`sin6_addr` starts) for every other family, and nothing for a null `ai_addr`. -/
def address_field (r : addrinfo) : Option (List Nat) :=
  match r.ai_addr with
  | none => none
  | some bytes => some (bytes.drop (if r.ai_family = AF_INET then 4 else 8))

/-- Contents of the text buffer after converting, one after the other, the
addresses of the given records, starting from the contents `buf`. -/
def buffer_after (P : Platform) (buf : String) (rs : List addrinfo) : String :=
  rs.foldl (fun b r => P.inet_ntop r.ai_family (address_field r) b INET6_ADDRSTRLEN) buf

/-- One entry per record of the resolver list, in list order: the family label
and the text of the buffer after converting that record. -/
def address_entries (P : Platform) (buf : String) (rs : List addrinfo) :
    List (String × String) :=
  rs.mapIdx (fun i r =>
    (if r.ai_family = AF_INET then "IPv4" else "IPv6",
     buffer_after P buf (rs.take (i + 1))))

/-- An output line: two spaces, label, colon, space, text, newline. -/
def address_line (e : String × String) : String :=
  "  " ++ e.1 ++ ": " ++ e.2 ++ "\n"

/-- All stages before the lookup passed: one argument, Winsock started, and
the version check of line 67 did not reject. -/
abbrev lookup_issued (P : Platform) (argc : Int) : Prop :=
  argc = 2 ∧ (P.WSAStartup (MAKEWORD 2 2)).1 = 0 ∧
    ¬ (LOBYTE (P.WSAStartup (MAKEWORD 2 2)).2 < 2 ∨ HIBYTE (P.WSAStartup (MAKEWORD 2 2)).2 < 2)

/-- The lookup was issued and returned status 0. -/
abbrev lookup_succeeded (P : Platform) (argc : Int) (argv : Nat → String) : Prop :=
  lookup_issued P argc ∧ (P.getaddrinfo (argv 1) none s_hints).1 = 0

/-- The stand-in platform at Winsock 2.2 with both loopback records. -/
def loopbackPlatform : Platform := localPlatform (MAKEWORD 2 2) [loopback4, loopback6]

theorem concat_nil : concat [] = "" := rfl

theorem concat_cons (s : String) (l : List String) : concat (s :: l) = s ++ concat l := rfl

/-- The pointer the loop passes to `inet_ntop` points at the address of the record. -/
theorem pv_address_eq_address_field (r : addrinfo) : pv_address r = address_field r := by
  unfold pv_address address_field offset_sin_addr offset_sin6_addr
  cases r.ai_addr with
  | none => simp
  | some bytes =>
    by_cases hf : r.ai_family = AF_INET
    · simp [hf]
    · simp [hf]

theorem buffer_after_cons (P : Platform) (buf : String) (r : addrinfo) (rs : List addrinfo) :
    buffer_after P buf (r :: rs)
      = buffer_after P (P.inet_ntop r.ai_family (address_field r) buf INET6_ADDRSTRLEN) rs := rfl

theorem address_entries_cons (P : Platform) (buf : String) (r : addrinfo) (rs : List addrinfo) :
    address_entries P buf (r :: rs)
      = (if r.ai_family = AF_INET then "IPv4" else "IPv6",
          P.inet_ntop r.ai_family (address_field r) buf INET6_ADDRSTRLEN)
        :: address_entries P (P.inet_ntop r.ai_family (address_field r) buf INET6_ADDRSTRLEN)
            rs := by
  unfold address_entries
  rw [List.mapIdx_cons]
  rfl

/-- The loop prints exactly the lines of `address_entries`. -/
theorem print_addresses_text (P : Platform) (rs : List addrinfo) (buf : String) :
    (print_addresses P rs buf).1 = concat ((address_entries P buf rs).map address_line) := by
  induction rs generalizing buf with
  | nil => rfl
  | cons r rest ih =>
    rw [address_entries_cons, List.map_cons, concat_cons, ← ih, ← pv_address_eq_address_field]
    simp only [print_addresses, address_line, pc_ipver]

/-- The loop calls `inet_ntop` once per record and nothing else. -/
theorem print_addresses_trace (P : Platform) (rs : List addrinfo) (buf : String) :
    (print_addresses P rs buf).2
      = rs.map (fun r => Call.inet_ntop r.ai_family (pv_address r) INET6_ADDRSTRLEN) := by
  induction rs generalizing buf with
  | nil => rfl
  | cons r rest ih => simp only [print_addresses, List.map_cons, ih]

/-! ## The five paths through `main` -/

theorem main_usage (P : Platform) (argc : Int) (argv : Nat → String) (h : argc ≠ 2) :
    main P argc argv
      = { exit := 1, stdout := "", stderr := "usage: WSshowip hostname\n", trace := [] } := by
  unfold main
  rw [if_pos h]

theorem main_startup_failed (P : Platform) (argc : Int) (argv : Nat → String) (h : argc = 2)
    (hs : (P.WSAStartup (MAKEWORD 2 2)).1 ≠ 0) :
    main P argc argv
      = { exit := 2, stdout := "",
          stderr := "WSAStartup failed with code " ++ fmt_d (P.WSAStartup (MAKEWORD 2 2)).1
            ++ ".\n" ++ ((get_msg_text P (toDWORD (P.WSAStartup (MAKEWORD 2 2)).1)).1 ++ "\n"),
          trace := [Call.WSAStartup (MAKEWORD 2 2)]
            ++ (get_msg_text P (toDWORD (P.WSAStartup (MAKEWORD 2 2)).1)).2
            ++ [Call.LocalFree] } := by
  unfold main
  rw [if_neg (not_not.mpr h)]
  simp only [if_pos hs]

theorem main_version_rejected (P : Platform) (argc : Int) (argv : Nat → String) (h : argc = 2)
    (hs : (P.WSAStartup (MAKEWORD 2 2)).1 = 0)
    (hv : LOBYTE (P.WSAStartup (MAKEWORD 2 2)).2 < 2 ∨ HIBYTE (P.WSAStartup (MAKEWORD 2 2)).2 < 2) :
    main P argc argv
      = { exit := 3, stdout := "",
          stderr := "Version 2.2 of Winsock is not available.\n",
          trace := [Call.WSAStartup (MAKEWORD 2 2)] ++ [Call.WSACleanup] } := by
  unfold main
  rw [if_neg (not_not.mpr h)]
  simp only [if_neg (not_not.mpr hs), if_pos hv]

theorem main_lookup_failed (P : Platform) (argc : Int) (argv : Nat → String)
    (h : lookup_issued P argc) (hl : (P.getaddrinfo (argv 1) none s_hints).1 ≠ 0) :
    main P argc argv
      = { exit := 4, stdout := "",
          stderr := "getaddrinfo failed with code " ++ fmt_ld (toDWORD P.WSAGetLastError)
            ++ ".\n" ++ ((get_msg_text P (toDWORD P.WSAGetLastError)).1 ++ "\n"),
          trace := [Call.WSAStartup (MAKEWORD 2 2)]
            ++ [Call.getaddrinfo (argv 1) none s_hints] ++ [Call.WSAGetLastError]
            ++ (get_msg_text P (toDWORD P.WSAGetLastError)).2
            ++ [Call.LocalFree, Call.WSACleanup] } := by
  obtain ⟨h2, hs, hv⟩ := h
  unfold main
  rw [if_neg (not_not.mpr h2)]
  simp only [if_neg (not_not.mpr hs), if_neg hv, if_pos hl]

theorem main_success (P : Platform) (argc : Int) (argv : Nat → String)
    (h : lookup_succeeded P argc argv) :
    main P argc argv
      = { exit := 0,
          stdout := "IP addresses for " ++ argv 1 ++ ":\n\n"
            ++ (print_addresses P (P.getaddrinfo (argv 1) none s_hints).2 P.ac_ipstr).1,
          stderr := "",
          trace := [Call.WSAStartup (MAKEWORD 2 2)]
            ++ [Call.getaddrinfo (argv 1) none s_hints]
            ++ (print_addresses P (P.getaddrinfo (argv 1) none s_hints).2 P.ac_ipstr).2
            ++ [Call.WSACleanup, Call.freeaddrinfo (P.getaddrinfo (argv 1) none s_hints).2] } := by
  obtain ⟨⟨h2, hs, hv⟩, hl⟩ := h
  unfold main
  rw [if_neg (not_not.mpr h2)]
  simp only [if_neg (not_not.mpr hs), if_neg hv, if_neg (not_not.mpr hl)]

/-- Every run falls on exactly one of the five paths. -/
theorem main_cases (P : Platform) (argc : Int) (argv : Nat → String) :
    argc ≠ 2
    ∨ (argc = 2 ∧ (P.WSAStartup (MAKEWORD 2 2)).1 ≠ 0)
    ∨ (argc = 2 ∧ (P.WSAStartup (MAKEWORD 2 2)).1 = 0 ∧
        (LOBYTE (P.WSAStartup (MAKEWORD 2 2)).2 < 2 ∨ HIBYTE (P.WSAStartup (MAKEWORD 2 2)).2 < 2))
    ∨ (lookup_issued P argc ∧ (P.getaddrinfo (argv 1) none s_hints).1 ≠ 0)
    ∨ lookup_succeeded P argc argv := by
  unfold lookup_succeeded lookup_issued
  tauto

theorem string_append_ne_empty (s t : String) (hs : s ≠ "") : s ++ t ≠ "" := by
  intro h
  apply hs
  have h1 : (s ++ t).data = [] := by rw [h]
  rw [String.data_append] at h1
  exact String.ext (List.append_eq_nil.mp h1).1

theorem string_append_eq_self (s t : String) : s ++ t = s ↔ t = "" := by
  constructor
  · intro h
    have h1 : (s ++ t).data = s.data := by rw [h]
    rw [String.data_append] at h1
    exact String.ext (List.append_right_eq_self.mp h1)
  · intro h
    rw [h, String.append_empty]

/-! ## Address lines -/

theorem address_line_ne_empty (e : String × String) : address_line e ≠ "" := by
  unfold address_line
  exact string_append_ne_empty _ _ (string_append_ne_empty _ _
    (string_append_ne_empty _ _ (string_append_ne_empty _ _ (by decide))))

theorem address_entries_length (P : Platform) (buf : String) (rs : List addrinfo) :
    (address_entries P buf rs).length = rs.length := by
  simp [address_entries]

theorem address_entries_getElem? (P : Platform) (buf : String) (rs : List addrinfo)
    (i : Nat) (r : addrinfo) (hr : rs[i]? = some r) :
    (address_entries P buf rs)[i]?
      = some (if r.ai_family = AF_INET then "IPv4" else "IPv6",
          buffer_after P buf (rs.take (i + 1))) := by
  simp [address_entries, hr]

/-- The buffer after record `i` is what `inet_ntop` made of the buffer before it. -/
theorem buffer_after_take_succ (P : Platform) (buf : String) (rs : List addrinfo)
    (i : Nat) (r : addrinfo) (hr : rs[i]? = some r) :
    buffer_after P buf (rs.take (i + 1))
      = P.inet_ntop r.ai_family (address_field r) (buffer_after P buf (rs.take i))
          INET6_ADDRSTRLEN := by
  unfold buffer_after
  rw [List.take_succ, hr, List.foldl_append]
  rfl

theorem concat_entries_eq_empty (P : Platform) (buf : String) (rs : List addrinfo) :
    concat ((address_entries P buf rs).map address_line) = "" ↔ rs = [] := by
  cases rs with
  | nil => simp [address_entries, concat]
  | cons r rest =>
    rw [address_entries_cons, List.map_cons, concat_cons]
    simp only [reduceCtorEq, iff_false]
    exact string_append_ne_empty _ _ (address_line_ne_empty _)

theorem success_stdout_entries (P : Platform) (argc : Int) (argv : Nat → String)
    (h : lookup_succeeded P argc argv) :
    (main P argc argv).stdout
      = header (argv 1)
        ++ concat ((address_entries P P.ac_ipstr
            (P.getaddrinfo (argv 1) none s_hints).2).map address_line) := by
  rw [main_success P argc argv h]
  simp only [print_addresses_text]
  rfl

/-! ## Exit codes and output streams -/

/-- C1: the exit code of `main` is the staged function of `argc`, the
`WSAStartup` status, the reported `wVersion` and the `getaddrinfo` status
(1 for a wrong argument count, else 2 for a failed start, else 3 for a failed
version check, else 4 for a failed lookup, else 0), and is always one of
0, 1, 2, 3, 4. -/
theorem exit_code_by_stage (P : Platform) (argc : Int) (argv : Nat → String) :
    (main P argc argv).exit
        = exit_code_spec argc (P.WSAStartup (MAKEWORD 2 2)).1 (P.WSAStartup (MAKEWORD 2 2)).2
            (P.getaddrinfo (argv 1) none s_hints).1
      ∧ ((main P argc argv).exit = 0 ∨ (main P argc argv).exit = 1
          ∨ (main P argc argv).exit = 2 ∨ (main P argc argv).exit = 3
          ∨ (main P argc argv).exit = 4) := by
  rcases main_cases P argc argv with h | ⟨h, hs⟩ | ⟨h, hs, hv⟩ | ⟨h, hl⟩ | h
  · rw [main_usage P argc argv h]
    simp [exit_code_spec, h]
  · rw [main_startup_failed P argc argv h hs]
    simp [exit_code_spec, h, hs]
  · rw [main_version_rejected P argc argv h hs hv]
    simp [exit_code_spec, h, hs, hv]
  · rw [main_lookup_failed P argc argv h hl]
    obtain ⟨h2, hs, hv⟩ := h
    simp [exit_code_spec, h2, hs, hv, hl]
  · rw [main_success P argc argv h]
    obtain ⟨⟨h2, hs, hv⟩, hl⟩ := h
    simp [exit_code_spec, h2, hs, hv, hl]

/-- C2: with an argument count other than 2, `main` returns 1, writes exactly
the usage line to standard error, writes nothing to standard output and makes
no platform call. -/
theorem wrong_argc_usage (P : Platform) (argc : Int) (argv : Nat → String) (h : argc ≠ 2) :
    (main P argc argv).exit = 1
      ∧ (main P argc argv).stderr = "usage: WSshowip hostname\n"
      ∧ (main P argc argv).stdout = ""
      ∧ (main P argc argv).trace = [] := by
  rw [main_usage P argc argv h]
  exact ⟨rfl, rfl, rfl, rfl⟩

/-- C3: on the success path standard output is the header for `argv[1]`
followed by one line per record of the resolver list, in list order.  Line `i`
carries the label `IPv4` when the family of record `i` is `AF_INET` and `IPv6`
otherwise, and the text `inet_ntop` wrote for the family of record `i` and the
address bytes of record `i` (its `sockaddr` from byte 4 on for `AF_INET`, from
byte 8 on otherwise) into the buffer, which before that call held the text of
line `i - 1` (the initial contents for the first line). -/
theorem success_stdout (P : Platform) (argc : Int) (argv : Nat → String)
    (h : lookup_succeeded P argc argv) :
    (main P argc argv).stdout
        = "IP addresses for " ++ argv 1 ++ ":\n\n"
          ++ concat ((address_entries P P.ac_ipstr (P.getaddrinfo (argv 1) none s_hints).2).map
              (fun e => "  " ++ e.1 ++ ": " ++ e.2 ++ "\n"))
      ∧ (address_entries P P.ac_ipstr (P.getaddrinfo (argv 1) none s_hints).2).length
          = (P.getaddrinfo (argv 1) none s_hints).2.length
      ∧ ∀ (i : Nat) (r : addrinfo), (P.getaddrinfo (argv 1) none s_hints).2[i]? = some r →
          ∃ before : String,
            (i = 0 → before = P.ac_ipstr)
            ∧ (∀ j : Nat, i = j + 1 → ∃ label : String,
                (address_entries P P.ac_ipstr (P.getaddrinfo (argv 1) none s_hints).2)[j]?
                  = some (label, before))
            ∧ (address_entries P P.ac_ipstr (P.getaddrinfo (argv 1) none s_hints).2)[i]?
              = some (if r.ai_family = AF_INET then "IPv4" else "IPv6",
                  P.inet_ntop r.ai_family
                    (r.ai_addr.map (List.drop (if r.ai_family = AF_INET then 4 else 8)))
                    before 65) := by
  refine ⟨?_, ?_, ?_⟩
  · rw [main_success P argc argv h]
    simp only [print_addresses_text]
    rfl
  · simp [address_entries]
  · intro i r hr
    refine ⟨buffer_after P P.ac_ipstr ((P.getaddrinfo (argv 1) none s_hints).2.take i),
      ?_, ?_, ?_⟩
    · intro h0
      rw [h0]
      rfl
    · intro j hj
      have hlt : j < (P.getaddrinfo (argv 1) none s_hints).2.length := by
        have := (List.getElem?_eq_some.mp hr).1
        omega
      have hprev := address_entries_getElem? P P.ac_ipstr _ j _ (List.getElem?_eq_getElem hlt)
      rw [hj]
      exact ⟨_, hprev⟩
    · rw [address_entries_getElem? P P.ac_ipstr _ i r hr,
        buffer_after_take_succ P P.ac_ipstr _ i r hr]
      have ha : address_field r
          = r.ai_addr.map (List.drop (if r.ai_family = AF_INET then 4 else 8)) := by
        unfold address_field
        cases r.ai_addr <;> rfl
      rw [ha]
      rfl

/-- C4: a non-zero exit code comes with an empty standard output and a
non-empty standard error; exit code 0 comes with an empty standard error and
the header followed by the line of every record of the resolver list. -/
theorem all_or_nothing (P : Platform) (argc : Int) (argv : Nat → String) :
    ((main P argc argv).exit ≠ 0 →
        (main P argc argv).stdout = "" ∧ (main P argc argv).stderr ≠ "")
      ∧ ((main P argc argv).exit = 0 →
        (main P argc argv).stderr = ""
          ∧ (main P argc argv).stdout
            = header (argv 1)
              ++ concat ((address_entries P P.ac_ipstr
                  (P.getaddrinfo (argv 1) none s_hints).2).map address_line)) := by
  rcases main_cases P argc argv with h | ⟨h, hs⟩ | ⟨h, hs, hv⟩ | ⟨h, hl⟩ | h
  · rw [main_usage P argc argv h]
    exact ⟨fun _ => ⟨rfl, by decide⟩, fun h0 => absurd h0 (by decide)⟩
  · rw [main_startup_failed P argc argv h hs]
    refine ⟨fun _ => ⟨rfl, ?_⟩, fun h0 => absurd h0 (by simp)⟩
    exact string_append_ne_empty _ _ (string_append_ne_empty _ _
      (string_append_ne_empty _ _ (by decide)))
  · rw [main_version_rejected P argc argv h hs hv]
    exact ⟨fun _ => ⟨rfl, by decide⟩, fun h0 => absurd h0 (by decide)⟩
  · rw [main_lookup_failed P argc argv h hl]
    refine ⟨fun _ => ⟨rfl, ?_⟩, fun h0 => absurd h0 (by simp)⟩
    exact string_append_ne_empty _ _ (string_append_ne_empty _ _
      (string_append_ne_empty _ _ (by decide)))
  · rw [main_success P argc argv h]
    refine ⟨fun h0 => absurd rfl h0, fun _ => ⟨rfl, ?_⟩⟩
    simp only [print_addresses_text]
    rfl

/-! ## Text forms of the stand-in conversion -/

/-- C2 (witness): `wrong_argc_usage` at a command line without arguments. -/
theorem wrong_argc_usage_witness :
    (1 : Int) ≠ 2
      ∧ (main loopbackPlatform 1 (argvOf "")).exit = 1
      ∧ (main loopbackPlatform 1 (argvOf "")).stderr = "usage: WSshowip hostname\n"
      ∧ (main loopbackPlatform 1 (argvOf "")).stdout = ""
      ∧ (main loopbackPlatform 1 (argvOf "")).trace = [] :=
  ⟨by decide, wrong_argc_usage loopbackPlatform 1 (argvOf "") (by decide)⟩

/-- C3 (witness): `success_stdout` at the stand-in platform with both loopback
records, where the two lines carry the texts of 127.0.0.1 and of the IPv6
loopback address. -/
theorem success_stdout_witness :
    lookup_succeeded loopbackPlatform 2 (argvOf "localhost")
      ∧ ((main loopbackPlatform 2 (argvOf "localhost")).stdout
          = "IP addresses for " ++ argvOf "localhost" 1 ++ ":\n\n"
            ++ concat ((address_entries loopbackPlatform loopbackPlatform.ac_ipstr
                (loopbackPlatform.getaddrinfo (argvOf "localhost" 1) none s_hints).2).map
                (fun e => "  " ++ e.1 ++ ": " ++ e.2 ++ "\n"))
        ∧ (address_entries loopbackPlatform loopbackPlatform.ac_ipstr
              (loopbackPlatform.getaddrinfo (argvOf "localhost" 1) none s_hints).2).length
            = (loopbackPlatform.getaddrinfo (argvOf "localhost" 1) none s_hints).2.length
        ∧ ∀ (i : Nat) (r : addrinfo),
            (loopbackPlatform.getaddrinfo (argvOf "localhost" 1) none s_hints).2[i]? = some r →
            ∃ before : String,
              (i = 0 → before = loopbackPlatform.ac_ipstr)
              ∧ (∀ j : Nat, i = j + 1 → ∃ label : String,
                  (address_entries loopbackPlatform loopbackPlatform.ac_ipstr
                      (loopbackPlatform.getaddrinfo (argvOf "localhost" 1) none s_hints).2)[j]?
                    = some (label, before))
              ∧ (address_entries loopbackPlatform loopbackPlatform.ac_ipstr
                    (loopbackPlatform.getaddrinfo (argvOf "localhost" 1) none s_hints).2)[i]?
                = some (if r.ai_family = AF_INET then "IPv4" else "IPv6",
                    loopbackPlatform.inet_ntop r.ai_family
                      (r.ai_addr.map (List.drop (if r.ai_family = AF_INET then 4 else 8)))
                      before 65))
      ∧ (main loopbackPlatform 2 (argvOf "localhost")).stdout
        = "IP addresses for localhost:\n\n  IPv4: 127.0.0.1\n  IPv6: 0:0:0:0:0:0:0:1\n" :=
  ⟨by decide, success_stdout loopbackPlatform 2 (argvOf "localhost") (by decide), by decide⟩

/-! ## Non-empty results -/

/-- Exit code 0 is reached only on the path where the lookup succeeded. -/
theorem lookup_succeeded_of_exit_zero (P : Platform) (argc : Int) (argv : Nat → String)
    (hexit : (main P argc argv).exit = 0) : lookup_succeeded P argc argv := by
  rcases main_cases P argc argv with h | ⟨h, hs⟩ | ⟨h, hs, hv⟩ | ⟨h, hl⟩ | h
  · rw [main_usage P argc argv h] at hexit
    exact absurd hexit (by simp)
  · rw [main_startup_failed P argc argv h hs] at hexit
    exact absurd hexit (by simp)
  · rw [main_version_rejected P argc argv h hs hv] at hexit
    exact absurd hexit (by simp)
  · rw [main_lookup_failed P argc argv h hl] at hexit
    exact absurd hexit (by simp)
  · exact h

/-- C6: with a resolver that, as the specification says, reports failure and
not an empty list, whenever `main` returns 0 the lookup succeeded, its list is
not empty, and the header on standard output is followed by at least one
address line: one line per record, the first of them right after the header,
so the header never stands alone. -/
theorem result_not_empty (P : Platform) (argc : Int) (argv : Nat → String)
    (hres : resolver_contract P) (hexit : (main P argc argv).exit = 0) :
    (P.getaddrinfo (argv 1) none s_hints).1 = 0
      ∧ (main P argc argv).stdout
        = header (argv 1)
          ++ concat ((address_entries P P.ac_ipstr
              (P.getaddrinfo (argv 1) none s_hints).2).map address_line)
      ∧ ((address_entries P P.ac_ipstr (P.getaddrinfo (argv 1) none s_hints).2).map
            address_line).length
          = (P.getaddrinfo (argv 1) none s_hints).2.length
      ∧ 1 ≤ ((address_entries P P.ac_ipstr (P.getaddrinfo (argv 1) none s_hints).2).map
            address_line).length
      ∧ (∃ (label text rest : String),
          (main P argc argv).stdout
            = header (argv 1) ++ ("  " ++ label ++ ": " ++ text ++ "\n" ++ rest))
      ∧ (main P argc argv).stdout ≠ header (argv 1) := by
  have h := lookup_succeeded_of_exit_zero P argc argv hexit
  have hne := hres (argv 1) none s_hints h.2
  have hout := success_stdout_entries P argc argv h
  have hlen : ((address_entries P P.ac_ipstr (P.getaddrinfo (argv 1) none s_hints).2).map
      address_line).length = (P.getaddrinfo (argv 1) none s_hints).2.length := by
    rw [List.length_map, address_entries_length]
  refine ⟨h.2, hout, hlen, ?_, ?_, ?_⟩
  · rw [hlen]
    exact List.length_pos.mpr hne
  · rw [hout]
    cases hrs : (P.getaddrinfo (argv 1) none s_hints).2 with
    | nil => exact absurd hrs hne
    | cons r rest =>
      rw [address_entries_cons, List.map_cons, concat_cons]
      exact ⟨_, _, _, rfl⟩
  · rw [hout, Ne, string_append_eq_self, concat_entries_eq_empty]
    exact hne

theorem loopback_resolver_contract : resolver_contract loopbackPlatform := by
  intro node service hints hst
  by_cases hn : node = "localhost"
  · have e : loopbackPlatform.getaddrinfo node service hints = (0, [loopback4, loopback6]) := by
      simp [loopbackPlatform, localPlatform, hn]
    rw [e]
    simp
  · have e : loopbackPlatform.getaddrinfo node service hints = (11001, []) := by
      simp [loopbackPlatform, localPlatform, hn]
    rw [e] at hst
    exact absurd hst (by decide)

/-- C6 (witness): `result_not_empty` at the stand-in platform with both
loopback records. -/
theorem result_not_empty_witness :
    resolver_contract loopbackPlatform
      ∧ (main loopbackPlatform 2 (argvOf "localhost")).exit = 0
      ∧ ((loopbackPlatform.getaddrinfo (argvOf "localhost" 1) none s_hints).1 = 0
        ∧ (main loopbackPlatform 2 (argvOf "localhost")).stdout
          = header (argvOf "localhost" 1)
            ++ concat ((address_entries loopbackPlatform loopbackPlatform.ac_ipstr
                (loopbackPlatform.getaddrinfo (argvOf "localhost" 1) none s_hints).2).map
                  address_line)
        ∧ ((address_entries loopbackPlatform loopbackPlatform.ac_ipstr
              (loopbackPlatform.getaddrinfo (argvOf "localhost" 1) none s_hints).2).map
              address_line).length
            = (loopbackPlatform.getaddrinfo (argvOf "localhost" 1) none s_hints).2.length
        ∧ 1 ≤ ((address_entries loopbackPlatform loopbackPlatform.ac_ipstr
              (loopbackPlatform.getaddrinfo (argvOf "localhost" 1) none s_hints).2).map
              address_line).length
        ∧ (∃ (label text rest : String),
            (main loopbackPlatform 2 (argvOf "localhost")).stdout
              = header (argvOf "localhost" 1)
                ++ ("  " ++ label ++ ": " ++ text ++ "\n" ++ rest))
        ∧ (main loopbackPlatform 2 (argvOf "localhost")).stdout
            ≠ header (argvOf "localhost" 1)) :=
  ⟨loopback_resolver_contract, by decide,
    result_not_empty loopbackPlatform 2 (argvOf "localhost") loopback_resolver_contract
      (by decide)⟩

/-! ## Platform calls -/

theorem print_addresses_trace_filter (P : Platform) (rs : List addrinfo) (buf : String)
    (p : Call → Bool) (hp : ∀ f a n, p (Call.inet_ntop f a n) = false) :
    (print_addresses P rs buf).2.filter p = [] := by
  rw [print_addresses_trace, List.filter_eq_nil_iff]
  intro c hc
  obtain ⟨r, _, rfl⟩ := List.mem_map.mp hc
  simp [hp]

/-- How often, and with what arguments, `main` calls `WSAStartup`,
`WSACleanup`, `getaddrinfo` and `freeaddrinfo`. -/
theorem trace_filters (P : Platform) (argc : Int) (argv : Nat → String) :
    (main P argc argv).trace.filter is_WSAStartup
        = (if argc = 2 then [Call.WSAStartup (MAKEWORD 2 2)] else [])
      ∧ (main P argc argv).trace.filter is_WSACleanup
        = (if argc = 2 ∧ (P.WSAStartup (MAKEWORD 2 2)).1 = 0 then [Call.WSACleanup] else [])
      ∧ (main P argc argv).trace.filter is_getaddrinfo
        = (if argc = 2 ∧ (P.WSAStartup (MAKEWORD 2 2)).1 = 0
              ∧ ¬ (LOBYTE (P.WSAStartup (MAKEWORD 2 2)).2 < 2
                ∨ HIBYTE (P.WSAStartup (MAKEWORD 2 2)).2 < 2)
            then [Call.getaddrinfo (argv 1) none s_hints] else [])
      ∧ (main P argc argv).trace.filter is_freeaddrinfo
        = (if (argc = 2 ∧ (P.WSAStartup (MAKEWORD 2 2)).1 = 0
              ∧ ¬ (LOBYTE (P.WSAStartup (MAKEWORD 2 2)).2 < 2
                ∨ HIBYTE (P.WSAStartup (MAKEWORD 2 2)).2 < 2))
              ∧ (P.getaddrinfo (argv 1) none s_hints).1 = 0
            then [Call.freeaddrinfo (P.getaddrinfo (argv 1) none s_hints).2] else []) := by
  rcases main_cases P argc argv with h | ⟨h, hs⟩ | ⟨h, hs, hv⟩ | ⟨h, hl⟩ | h
  · rw [main_usage P argc argv h]
    simp [h]
  · rw [main_startup_failed P argc argv h hs]
    simp [h, hs, get_msg_text, is_WSAStartup, is_WSACleanup, is_getaddrinfo, is_freeaddrinfo]
  · rw [main_version_rejected P argc argv h hs hv]
    simp [h, hs, hv, is_WSAStartup, is_WSACleanup, is_getaddrinfo, is_freeaddrinfo]
  · rw [main_lookup_failed P argc argv h hl]
    obtain ⟨h2, hs, hv⟩ := h
    simp [h2, hs, hv, hl, get_msg_text, is_WSAStartup, is_WSACleanup, is_getaddrinfo,
      is_freeaddrinfo]
  · rw [main_success P argc argv h]
    obtain ⟨⟨h2, hs, hv⟩, hl⟩ := h
    simp [h2, hs, hv, hl, print_addresses_trace_filter, is_WSAStartup, is_WSACleanup,
      is_getaddrinfo, is_freeaddrinfo]

/-- C7: `WSACleanup` is called exactly once when `WSAStartup` was called and
returned 0 and never otherwise; `freeaddrinfo` is called exactly once, on the
list the lookup returned, when `getaddrinfo` was called and returned 0 and
never otherwise.  `WSAStartup` itself is called exactly when `argc = 2`, and
`getaddrinfo` exactly when the start and the version check passed. -/
theorem cleanup_and_free_once (P : Platform) (argc : Int) (argv : Nat → String) :
    (main P argc argv).trace.filter is_WSAStartup
        = (if argc = 2 then [Call.WSAStartup (MAKEWORD 2 2)] else [])
      ∧ (main P argc argv).trace.filter is_WSACleanup
        = (if argc = 2 ∧ (P.WSAStartup (MAKEWORD 2 2)).1 = 0 then [Call.WSACleanup] else [])
      ∧ (main P argc argv).trace.filter is_getaddrinfo
        = (if lookup_issued P argc then [Call.getaddrinfo (argv 1) none s_hints] else [])
      ∧ (main P argc argv).trace.filter is_freeaddrinfo
        = (if lookup_succeeded P argc argv
            then [Call.freeaddrinfo (P.getaddrinfo (argv 1) none s_hints).2] else []) :=
  trace_filters P argc argv

/-- C9: `getaddrinfo` is called once when `argc = 2`, `WSAStartup` returned 0
and the version check passed, and not at all otherwise; it is given `argv[1]`
itself as node name, a null service name, and hints whose family is
`AF_UNSPEC`, whose socket type is `SOCK_STREAM` and whose other fields are
zero. -/
theorem lookup_call (P : Platform) (argc : Int) (argv : Nat → String) :
    (main P argc argv).trace.filter is_getaddrinfo
        = (if argc = 2 ∧ (P.WSAStartup (MAKEWORD 2 2)).1 = 0
              ∧ ¬ (LOBYTE (P.WSAStartup (MAKEWORD 2 2)).2 < 2
                ∨ HIBYTE (P.WSAStartup (MAKEWORD 2 2)).2 < 2)
            then [Call.getaddrinfo (argv 1) none s_hints] else [])
      ∧ s_hints
        = { ai_flags := 0, ai_family := AF_UNSPEC, ai_socktype := SOCK_STREAM,
            ai_protocol := 0, ai_addrlen := 0, ai_canonname := none, ai_addr := none } :=
  ⟨(trace_filters P argc argv).2.2.1, rfl⟩

/-! ## The version check -/

theorem networking_after_cleanup_loop (rs : List addrinfo) (tail : List Call) :
    networking_after_cleanup
        (rs.map (fun r => Call.inet_ntop r.ai_family (pv_address r) INET6_ADDRSTRLEN)
          ++ Call.WSACleanup :: tail)
      = tail.filter is_networking := by
  induction rs with
  | nil => rfl
  | cons r rest ih => simpa [networking_after_cleanup] using ih

/-- On every successful run the only networking call after `WSACleanup` is
the `freeaddrinfo` of the resolver list. -/
theorem freeaddrinfo_after_cleanup (P : Platform) (argc : Int) (argv : Nat → String)
    (h : lookup_succeeded P argc argv) :
    networking_after_cleanup (main P argc argv).trace
      = [Call.freeaddrinfo (P.getaddrinfo (argv 1) none s_hints).2] := by
  rw [main_success P argc argv h, print_addresses_trace]
  show networking_after_cleanup
      (Call.WSAStartup (MAKEWORD 2 2) :: Call.getaddrinfo (argv 1) none s_hints
        :: ((P.getaddrinfo (argv 1) none s_hints).2.map
            (fun r => Call.inet_ntop r.ai_family (pv_address r) INET6_ADDRSTRLEN)
          ++ Call.WSACleanup :: [Call.freeaddrinfo (P.getaddrinfo (argv 1) none s_hints).2]))
    = [Call.freeaddrinfo (P.getaddrinfo (argv 1) none s_hints).2]
  simp only [networking_after_cleanup, networking_after_cleanup_loop]
  rfl

/-- C10 (the run that breaks it): for `WSshowip localhost` on the stand-in
platform the calls are `WSAStartup`, `getaddrinfo`, `inet_ntop`, `WSACleanup`,
`freeaddrinfo` in this order, so `freeaddrinfo` is made after `WSACleanup`. -/
theorem freeaddrinfo_follows_cleanup :
    (main (localPlatform (MAKEWORD 2 2) [loopback4]) 2 (argvOf "localhost")).exit = 0
      ∧ (main (localPlatform (MAKEWORD 2 2) [loopback4]) 2 (argvOf "localhost")).trace
        = [Call.WSAStartup 514,
            Call.getaddrinfo "localhost" none s_hints,
            Call.inet_ntop AF_INET (some [127, 0, 0, 1, 0, 0, 0, 0, 0, 0, 0, 0]) 65,
            Call.WSACleanup,
            Call.freeaddrinfo [loopback4]]
      ∧ networking_after_cleanup
          (main (localPlatform (MAKEWORD 2 2) [loopback4]) 2 (argvOf "localhost")).trace
        = [Call.freeaddrinfo [loopback4]] :=
  ⟨by decide, by decide, by decide⟩

end Winshowip
